import Mathlib

/-!
# Verification of the iceoryx2 blackboard store (Python binding surface)

This development embeds the blackboard key-value store of eclipse-iceoryx/iceoryx2
as exposed by the Python binding layer
(`iceoryx2-ffi/python/python-src/iceoryx2/blackboard_extensions.py`) and exercised by
the repository's test-suite
(`service_blackboard_tests.py`, `writer_tests.py`, `reader_tests.py`,
`service_builder_blackboard_tests.py`).

The native core (the Rust `_iceoryx2` module: entry cells, version counters, port
capacity accounting, the service registry) is not part of the Python sources; those
parts are modelled from the specification (`spec.md`), faithful to its words, with each
such definition carrying a doc comment starting `Modelled from the spec:`.  Where the
spec is silent and the repository's tests pin the behaviour down (writer-slot
accounting for outstanding EntryHandleMut objects, clamping of zero capacities), the
doc comment names the deciding test.

Values and keys are byte buffers (`List Nat`), matching the byte-level interface of
the binding layer (`ctypes.string_at` / `ctypes.memmove`); the version counter is a
`u64`, modelled as `Nat` reduced modulo `2^64` on every increment.
-/

namespace Iox2BB

/-- A byte buffer, as handled by the binding layer via `ctypes.string_at`
and `ctypes.memmove`.  Each element is one byte. -/
abbrev Bytes := List Nat

/-- The modulus of the `u64` generation counter of an entry cell. -/
def u64Mod : Nat := 2 ^ 64

/-- Value/key type metadata, mirroring the `TypeDetail` built in
`blackboard_extensions.py` (`type_name`, `size`, `alignment`); the
`FixedSize` variant is the only one used by the blackboard surface. -/
structure TypeDetail where
  typeName : String
  size : Nat
  alignment : Nat
deriving DecidableEq, Repr

/-- Modelled from the spec: an EntryCell (§3) owns a value buffer, a version
counter (unsigned, starts at 0, incremented on every committed write) and a
value-type descriptor recorded at creation time. -/
structure EntryCell where
  valueDetail : TypeDetail
  value : Bytes
  version : Nat
deriving DecidableEq, Repr

/-- Modelled from the spec: the EntryTable (§3) is an ordered sequence of
(Key, EntryCell) pairs indexed by EntryId (list position), with the key
equality function registered at store creation
(`__set_key_eq_cmp_func` in `blackboard_extensions.py`). -/
structure EntryTable where
  keyEq : Bytes → Bytes → Bool
  keys : List Bytes
  cells : List EntryCell

/-- Modelled from the spec: construction-time errors (§4.1, §4.6, §7):
`DuplicateKey`, `EmptyTable`, and `AlreadyExists` for a `create` under a name
whose segment is still alive.  All surface in Python as `BlackboardCreateError`. -/
inductive CreateError where
  | DuplicateKey
  | EmptyTable
  | AlreadyExists
deriving DecidableEq, Repr

/-- Modelled from the spec: handle-acquisition-time errors (§7):
`KeyNotFound`, `TypeMismatch`, `HandleAlreadyExists` (writer-side exclusivity).
They surface in Python as `EntryHandleError` / `EntryHandleMutError`. -/
inductive EntryHandleErrorKind where
  | KeyNotFound
  | TypeMismatch
  | HandleAlreadyExists
deriving DecidableEq, Repr

/-- Modelled from the spec: port-creation-time errors (§7):
`WriterSlotExhausted` (Python `WriterCreateError`) and `ReaderSlotExhausted`
(Python `ReaderCreateError`). -/
inductive PortCreateError where
  | WriterSlotExhausted
  | ReaderSlotExhausted
deriving DecidableEq, Repr

/-- Modelled from the spec: the writer loan state machine state of one
outstanding EntryHandleMut (§4.3): `Idle` or `Loaned` with a draft buffer
that is not yet visible to readers. -/
inductive LoanState where
  | idle
  | loaned (draft : Bytes)
deriving DecidableEq, Repr

/-- True when some pair of keys in the list compares equal under the
registered key equality function.  Modelled from the spec (§4.1): the
duplicate check of table construction. -/
def hasDuplicate (keyEq : Bytes → Bytes → Bool) : List Bytes → Bool
  | [] => false
  | k :: rest => rest.any (keyEq k) || hasDuplicate keyEq rest

/-- Modelled from the spec: `build` of the EntryTable (§4.1).  Fails with
`EmptyTable` on an empty entry list and with `DuplicateKey` when two entries
compare equal under the key's equality function; on success assigns EntryIds
0..n-1 in list order and initialises every cell's version to 0 with the given
initial value. -/
def buildTable (keyEq : Bytes → Bytes → Bool)
    (entries : List (Bytes × TypeDetail × Bytes)) : Except CreateError EntryTable :=
  if entries.isEmpty then .error .EmptyTable
  else if hasDuplicate keyEq (entries.map (·.1)) then .error .DuplicateKey
  else .ok
    { keyEq := keyEq
      keys := entries.map (·.1)
      cells := entries.map fun e => { valueDetail := e.2.1, value := e.2.2, version := 0 } }

/-- Modelled from the spec: Key→EntryId lookup (§4.2): scan over the table
comparing with the registered equality function; `none` when no key matches. -/
def findKey (keyEq : Bytes → Bytes → Bool) : List Bytes → Bytes → Option Nat
  | [], _ => none
  | k0 :: rest, k =>
    if keyEq k0 k then some 0 else (findKey keyEq rest k).map (· + 1)

/-- Modelled from the spec: the shared state of one blackboard service: the
EntryTable, the configured capacities, and the port/handle accounting (§3, §4.5).
`mutHandles` lists the outstanding EntryHandleMut objects by EntryId together
with their loan state (§4.3); at most one per EntryId is ever inserted. -/
structure ServiceState where
  table : EntryTable
  maxReaders : Nat
  maxNodes : Nat
  storeHandleAlive : Bool
  writerPortAlive : Bool
  readerPorts : Nat
  mutHandles : List (Nat × LoanState)

/-- The entry cell at an EntryId, if the id is in range. -/
def cellAt (s : ServiceState) (i : Nat) : Option EntryCell :=
  s.table.cells[i]?

/-- The snapshot returned by `EntryHandle.get()` in `blackboard_extensions.py`
(`BlackboardValue`): a byte-exact copy of the value plus the generation counter
observed. -/
structure BlackboardValue where
  data : Bytes
  generationCounter : Nat
deriving DecidableEq, Repr

/-- `EntryHandle.get()` (`blackboard_extensions.py`, backed by the native
`__get`): a copy of the cell's current value bytes together with the current
generation counter; `none` only for an out-of-range EntryId, which no issued
handle carries. -/
def get? (s : ServiceState) (i : Nat) : Option BlackboardValue :=
  (cellAt s i).map fun c => ⟨c.value, c.version⟩

/-- `EntryHandle.is_up_to_date(value)` (`blackboard_extensions.py`, backed by
the native `__is_up_to_date`): compares the snapshot's generation counter with
the cell's current one; `true` iff no commit has happened since (§4.4). -/
def isUpToDate? (s : ServiceState) (i : Nat) (generationCounter : Nat) : Option Bool :=
  (cellAt s i).map fun c => generationCounter == c.version

/-- Modelled from the spec: the commit step of a write (§4.3, §5): copy the new
value into the cell's buffer, then publish by incrementing the `u64` version
counter.  This is the effect of `update_with_copy` on an EntryHandleMut and of
the `__update_write_cell` behind `assume_init_and_update`.  An out-of-range
EntryId (never carried by an issued handle) leaves the state unchanged. -/
def commitCell (s : ServiceState) (i : Nat) (v : Bytes) : ServiceState :=
  match s.table.cells[i]? with
  | none => s
  | some c =>
    { s with
      table :=
        { s.table with
          cells := s.table.cells.set i
            { c with value := v, version := (c.version + 1) % u64Mod } } }

/-- `EntryHandleMut.update_with_copy` (`blackboard_extensions.py`
`update_with_copy_on_entry_handle`): memmove the passed value into the data
cell and publish it. -/
def update_with_copy (s : ServiceState) (i : Nat) (v : Bytes) : ServiceState :=
  commitCell s i v

/-- The loan state held for EntryId `i`, when an EntryHandleMut for it is
outstanding. -/
def lookupLoan : List (Nat × LoanState) → Nat → Option LoanState
  | [], _ => none
  | p :: rest, i => if p.1 = i then some p.2 else lookupLoan rest i

/-- Applies `f` to the loan state recorded for EntryId `i`, leaving all other
outstanding handles untouched. -/
def modifyLoan (hs : List (Nat × LoanState)) (i : Nat) (f : LoanState → LoanState) :
    List (Nat × LoanState) :=
  hs.map fun p => if p.1 = i then (p.1, f p.2) else p

/-- Modelled from the spec: `loan_uninit()` (§4.3): from `Idle`, transitions the
handle to `Loaned` with a draft buffer for the cell's next version, not yet
visible to readers (its initial content is unspecified; zeros here). -/
def loan_uninit (s : ServiceState) (i : Nat) : ServiceState :=
  match s.table.cells[i]? with
  | none => s
  | some c =>
    { s with
      mutHandles := modifyLoan s.mutHandles i fun st =>
        match st with
        | .idle => .loaned (List.replicate c.valueDetail.size 0)
        | st => st }

/-- Modelled from the spec: writing the loaned buffer (§4.3): `value_mut` /
`EntryValueUninit.update_with_copy` mutate the draft in place; permitted only
in `Loaned`, and not observable by readers (§4.3, and the repository test
`test_new_value_can_be_written_using_value_mut`). -/
def write_draft (s : ServiceState) (i : Nat) (v : Bytes) : ServiceState :=
  { s with
    mutHandles := modifyLoan s.mutHandles i fun st =>
      match st with
      | .loaned _ => .loaned v
      | st => st }

/-- Modelled from the spec: `update()` on the loaned value /
`assume_init_and_update` (§4.3): commits the draft (publish, §5) and
transitions the handle back to `Idle`, returning the same logical
EntryHandleMut. -/
def assume_init_and_update (s : ServiceState) (i : Nat) : ServiceState :=
  match lookupLoan s.mutHandles i with
  | some (.loaned d) =>
    let s' := commitCell s i d
    { s' with mutHandles := modifyLoan s'.mutHandles i fun _ => .idle }
  | _ => s

/-- Modelled from the spec: `discard()` (§4.3): abandons the draft without
publishing, transitions back to `Idle` without incrementing the version; the
previous committed value remains visible to readers. -/
def discard (s : ServiceState) (i : Nat) : ServiceState :=
  { s with mutHandles := modifyLoan s.mutHandles i fun _ => .idle }

/-- A reader-side entry handle (`EntryHandle`): bound to its EntryId after the
one-time key lookup and type check (§4.2); not exclusive. -/
structure EntryHandleRec where
  entryId : Nat
deriving DecidableEq, Repr

/-- A writer-side entry handle (`EntryHandleMut`): bound to its EntryId; at
most one live per EntryId (§4.3). -/
structure EntryHandleMutRec where
  entryId : Nat
deriving DecidableEq, Repr

/-- Modelled from the spec: acquisition of a reader `EntryHandle`
(`Reader.entry`, §4.2): key lookup (`KeyNotFound` on a miss), then validation
of the caller's value-type descriptor against the one recorded at creation
(`TypeMismatch` on a mismatch).  The check happens once, at acquisition, and
the handle is bound to the EntryId. -/
def readerEntry (s : ServiceState) (key : Bytes) (vd : TypeDetail) :
    Except EntryHandleErrorKind EntryHandleRec :=
  match findKey s.table.keyEq s.table.keys key with
  | none => .error .KeyNotFound
  | some i =>
    match s.table.cells[i]? with
    | none => .error .KeyNotFound
    | some c => if c.valueDetail = vd then .ok ⟨i⟩ else .error .TypeMismatch

/-- Modelled from the spec: acquisition of an `EntryHandleMut` (`Writer.entry`,
§4.2, §4.3): key lookup and type check as for readers, then the writer-side
exclusivity check — fails with `HandleAlreadyExists` while an EntryHandleMut
for that EntryId is outstanding; on success the handle is recorded as
outstanding in the `Idle` loan state. -/
def writerEntry (s : ServiceState) (key : Bytes) (vd : TypeDetail) :
    Except EntryHandleErrorKind (ServiceState × EntryHandleMutRec) :=
  match findKey s.table.keyEq s.table.keys key with
  | none => .error .KeyNotFound
  | some i =>
    match s.table.cells[i]? with
    | none => .error .KeyNotFound
    | some c =>
      if c.valueDetail = vd then
        if (lookupLoan s.mutHandles i).isSome then .error .HandleAlreadyExists
        else .ok ({ s with mutHandles := (i, .idle) :: s.mutHandles }, ⟨i⟩)
      else .error .TypeMismatch

/-- `EntryHandleMut.delete()`: releases the outstanding writer-side handle for
EntryId `i`, making a new acquisition for that EntryId possible (§4.3). -/
def releaseMutHandle (s : ServiceState) (i : Nat) : ServiceState :=
  { s with mutHandles := s.mutHandles.filter fun p => p.1 != i }

/-- Modelled from the spec: `WriterBuilder.create()` (§4.5): writer capacity is
exactly 1; fails with `WriterSlotExhausted` while a writer port is alive.  The
repository test `test_entry_handle_mut_prevents_another_writer`
(`writer_tests.py`) pins down that outstanding EntryHandleMut objects also keep
the writer slot occupied after the port itself was deleted. -/
def writerCreate (s : ServiceState) : Except PortCreateError ServiceState :=
  if s.writerPortAlive || !s.mutHandles.isEmpty then .error .WriterSlotExhausted
  else .ok { s with writerPortAlive := true }

/-- `Writer.delete()`: releases the writer port's capacity slot; already-issued
EntryHandleMut objects stay valid (§4.3, §4.5). -/
def writerDelete (s : ServiceState) : ServiceState :=
  { s with writerPortAlive := false }

/-- Modelled from the spec: `ReaderBuilder.create()` (§4.5): fails with
`ReaderSlotExhausted` when the `max_readers` limit is reached. -/
def readerCreate (s : ServiceState) : Except PortCreateError ServiceState :=
  if s.readerPorts < s.maxReaders then .ok { s with readerPorts := s.readerPorts + 1 }
  else .error .ReaderSlotExhausted

/-- `Reader.delete()`: returns the reader's capacity slot to the pool (§4.5);
already-issued EntryHandle objects stay valid (§4.4). -/
def readerDelete (s : ServiceState) : ServiceState :=
  { s with readerPorts := s.readerPorts - 1 }

/-- `Service.delete()`: releases the store handle (the `PortFactoryBlackboard`
object); the shared segment stays alive while any port has it open (§3). -/
def serviceDelete (s : ServiceState) : ServiceState :=
  { s with storeHandleAlive := false }

/-- Performs `n` successive `ReaderBuilder.create()` calls, stopping at the
first failure. -/
def createNReaders (s : ServiceState) : Nat → Except PortCreateError ServiceState
  | 0 => .ok s
  | n + 1 =>
    match readerCreate s with
    | .ok s' => createNReaders s' n
    | .error e => .error e

/-- Modelled from the spec: the segment of a service stays alive for as long as
at least one process — creator (store handle), writer or reader — has it open
(§3).  Its name stays taken in the registry exactly that long (§4.6). -/
def serviceAlive (s : ServiceState) : Bool :=
  s.storeHandleAlive || s.writerPortAlive || decide (0 < s.readerPorts)

/-- The registry of blackboard services known to the node, by service name. -/
structure World where
  services : List (String × ServiceState)

/-- True when a service with this name has an alive segment, which blocks a new
`create` under the name (§4.6). -/
def nameIsTaken (w : World) (n : String) : Bool :=
  w.services.any fun p => p.1 == n && serviceAlive p.2

/-- Modelled from the spec: `create` of a blackboard service (§4.6, §4.1):
fails (Python `BlackboardCreateError`) when the name already exists or the
entry list is empty or has duplicate keys; a failed create leaves the registry
unchanged (§7: a failed create leaves the store exactly as it was).  On
success, the capacities are recorded in the static config; the repository
tests `test_set_max_readers_to_zero_adjusts_it_to_one` and
`test_set_max_nodes_to_zero_adjusts_it_to_one`
(`service_builder_blackboard_tests.py`) pin down that a configured capacity of
0 is adjusted to 1. -/
def runCreate (w : World) (n : String) (keyEq : Bytes → Bytes → Bool)
    (entries : List (Bytes × TypeDetail × Bytes)) (mr mn : Nat) :
    World × Except CreateError ServiceState :=
  if nameIsTaken w n then (w, .error .AlreadyExists)
  else
    match buildTable keyEq entries with
    | .error e => (w, .error e)
    | .ok t =>
      let s : ServiceState :=
        { table := t
          maxReaders := max mr 1
          maxNodes := max mn 1
          storeHandleAlive := true
          writerPortAlive := false
          readerPorts := 0
          mutHandles := [] }
      (⟨(n, s) :: w.services⟩, .ok s)

/-! ## Basic lemmas about the cell store and the handle accounting -/

theorem lt_length_of_cellAt_eq_some {s : ServiceState} {i : Nat} {c : EntryCell}
    (hc : cellAt s i = some c) : i < s.table.cells.length := by
  by_contra h
  push_neg at h
  rw [cellAt, List.getElem?_eq_none h] at hc
  exact Option.noConfusion hc

theorem cellAt_commitCell_self {s : ServiceState} {i : Nat} {c : EntryCell} (v : Bytes)
    (hc : cellAt s i = some c) :
    cellAt (commitCell s i v) i =
      some { c with value := v, version := (c.version + 1) % u64Mod } := by
  have hlen := lt_length_of_cellAt_eq_some hc
  rw [cellAt] at hc
  simp [cellAt, commitCell, hc, List.getElem?_set_eq_of_lt _ hlen]

theorem cellAt_commitCell_ne {s : ServiceState} {i j : Nat} (v : Bytes) (hne : j ≠ i) :
    cellAt (commitCell s i v) j = cellAt s j := by
  rw [commitCell]
  cases hh : s.table.cells[i]? with
  | none => rfl
  | some c => simp [cellAt, List.getElem?_set_ne (fun h => hne h.symm)]

theorem get?_commitCell_self {s : ServiceState} {i : Nat} {c : EntryCell} (v : Bytes)
    (hc : cellAt s i = some c) :
    get? (commitCell s i v) i = some ⟨v, (c.version + 1) % u64Mod⟩ := by
  rw [get?, cellAt_commitCell_self v hc, Option.map_some']

theorem mutHandles_commitCell (s : ServiceState) (i : Nat) (v : Bytes) :
    (commitCell s i v).mutHandles = s.mutHandles := by
  rw [commitCell]
  cases s.table.cells[i]? <;> rfl

theorem lookupLoan_modifyLoan_self {hs : List (Nat × LoanState)} {i : Nat} {st : LoanState}
    (f : LoanState → LoanState) (h : lookupLoan hs i = some st) :
    lookupLoan (modifyLoan hs i f) i = some (f st) := by
  induction hs with
  | nil => exact Option.noConfusion h
  | cons p rest ih =>
    by_cases hp : p.1 = i
    · rw [lookupLoan, if_pos hp] at h
      cases h
      simp [modifyLoan, lookupLoan, hp]
    · rw [lookupLoan, if_neg hp] at h
      simpa [modifyLoan, lookupLoan, hp] using ih h

theorem lookupLoan_filter_self (hs : List (Nat × LoanState)) (i : Nat) :
    lookupLoan (hs.filter fun p => p.1 != i) i = none := by
  induction hs with
  | nil => rfl
  | cons p rest ih =>
    rw [List.filter_cons]
    by_cases hp : p.1 = i
    · simp [hp, ih]
    · simp [hp, lookupLoan, ih]

theorem cellAt_foldl_update_ne {i : Nat} (ops : List (Nat × Bytes))
    (hops : ∀ p ∈ ops, p.1 ≠ i) (s : ServiceState) :
    cellAt (ops.foldl (fun t p => update_with_copy t p.1 p.2) s) i = cellAt s i := by
  induction ops generalizing s with
  | nil => rfl
  | cons p rest ih =>
    rw [List.foldl_cons, ih (fun q hq => hops q (List.mem_cons_of_mem _ hq))]
    exact cellAt_commitCell_ne _ fun h => hops p (List.mem_cons_self _ _) h.symm

theorem succ_mod_u64_ne {v : Nat} (hv : v < u64Mod) : (v + 1) % u64Mod ≠ v := by
  intro h
  have hM : 1 < u64Mod := by rw [u64Mod]; norm_num
  rcases Nat.lt_or_ge (v + 1) u64Mod with hlt | hge
  · rw [Nat.mod_eq_of_lt hlt] at h
    omega
  · have hv1 : v + 1 = u64Mod := by omega
    rw [hv1, Nat.mod_self] at h
    omega

theorem readerEntry_ok_cell {s : ServiceState} {key : Bytes} {vd : TypeDetail}
    {h : EntryHandleRec} (hacq : readerEntry s key vd = .ok h) :
    ∃ c, cellAt s h.entryId = some c ∧ c.valueDetail = vd := by
  rw [readerEntry] at hacq
  split at hacq
  · exact Except.noConfusion hacq
  next i hf =>
    split at hacq
    · exact Except.noConfusion hacq
    next c hcell =>
      split at hacq
      next hvd =>
        cases hacq
        exact ⟨c, hcell, hvd⟩
      next hvd => exact Except.noConfusion hacq

/-! ## Concrete fixtures

These mirror the fixtures of the repository's tests: a `ctypes.c_uint64` key
(8 bytes, little endian) and small fixed-size values. -/

/-- The type descriptor built for `ctypes.c_uint16` values. -/
def u16Detail : TypeDetail := ⟨"c_uint16", 2, 2⟩

/-- The type descriptor built for `ctypes.c_uint64` values. -/
def u64Detail : TypeDetail := ⟨"c_uint64", 8, 8⟩

/-- The byte-wise key comparison, as produced by `get_key_cmp_func` for plain
ctypes keys (comparison of the stored values). -/
def byteEq : Bytes → Bytes → Bool := fun a b => a == b

/-- The key `c_uint64(0)` as little-endian bytes. -/
def key0Bytes : Bytes := [0, 0, 0, 0, 0, 0, 0, 0]

/-- The key `c_uint64(1)` as little-endian bytes. -/
def key1Bytes : Bytes := [1, 0, 0, 0, 0, 0, 0, 0]

/-- The entry list `{key=0 : u16 = 0}` of the round-trip scenario. -/
def demoEntries : List (Bytes × TypeDetail × Bytes) := [(key0Bytes, u16Detail, [0, 0])]

/-- A freshly created store with entries `{key=0 : u16 = 0}`, `max_readers = 8`
and `max_nodes = 2`, as produced by `runCreate` on an empty registry. -/
def demoState : ServiceState :=
  { table :=
      { keyEq := byteEq
        keys := [key0Bytes]
        cells := [{ valueDetail := u16Detail, value := [0, 0], version := 0 }] }
    maxReaders := 8
    maxNodes := 2
    storeHandleAlive := true
    writerPortAlive := false
    readerPorts := 0
    mutHandles := [] }

/-- A freshly created store with two entries,
`{key=0 : u16 = 0, key=1 : u64 = 0}`. -/
def demoState2 : ServiceState :=
  { table :=
      { keyEq := byteEq
        keys := [key0Bytes, key1Bytes]
        cells :=
          [{ valueDetail := u16Detail, value := [0, 0], version := 0 },
           { valueDetail := u64Detail, value := [0, 0, 0, 0, 0, 0, 0, 0], version := 0 }] }
    maxReaders := 8
    maxNodes := 2
    storeHandleAlive := true
    writerPortAlive := false
    readerPorts := 0
    mutHandles := [] }

/-! ## The claims -/

/-- C1: for every store entry and every value of the registered value type,
committing a value through a writer's EntryHandleMut (`update_with_copy`) and
then calling `get()` on any reader's EntryHandle for the same key returns a
byte-exact copy equal to it, and this holds for repeated updates without the
reader re-acquiring its handle. -/
theorem C1_round_trip_updates (s : ServiceState) (key : Bytes) (vd : TypeDetail)
    (h : EntryHandleRec) (hacq : readerEntry s key vd = .ok h)
    (v1 v2 : Bytes) (_hl1 : v1.length = vd.size) (_hl2 : v2.length = vd.size) :
    (get? (update_with_copy s h.entryId v1) h.entryId).map (·.data) = some v1 ∧
    (get? (update_with_copy (update_with_copy s h.entryId v1) h.entryId v2)
        h.entryId).map (·.data) = some v2 := by
  obtain ⟨c, hc, -⟩ := readerEntry_ok_cell hacq
  constructor
  · rw [update_with_copy, get?_commitCell_self v1 hc, Option.map_some']
  · rw [update_with_copy, update_with_copy,
      get?_commitCell_self v2 (cellAt_commitCell_self v1 hc), Option.map_some']

/-- Witness for C1: the concrete scenario of the spec — store `{key=0 : u16=0}`,
writer updates to 1234 (`[210, 4]` little endian), the reader sees it, writer
updates to 4567 (`[215, 17]`), the same reader handle sees the new value. -/
theorem C1_round_trip_updates_witness :
    readerEntry demoState key0Bytes u16Detail = .ok ⟨0⟩ ∧
    ([210, 4] : Bytes).length = u16Detail.size ∧
    ([215, 17] : Bytes).length = u16Detail.size ∧
    ((get? (update_with_copy demoState 0 [210, 4]) 0).map (·.data) = some [210, 4] ∧
     (get? (update_with_copy (update_with_copy demoState 0 [210, 4]) 0 [215, 17]) 0).map
        (·.data) = some [215, 17]) :=
  ⟨rfl, rfl, rfl,
    C1_round_trip_updates demoState key0Bytes u16Detail ⟨0⟩ rfl [210, 4] [215, 17] rfl rfl⟩

/-- C3: a snapshot obtained from `get()` stays up-to-date (`is_up_to_date`
returns `true`) as long as no commit to that entry has happened since — in
particular across any number of commits to other entries — and turns stale
(`false`) after the next successful commit to that entry. -/
theorem C3_staleness_detection (s : ServiceState) (i : Nat) (c : EntryCell)
    (hc : cellAt s i = some c) (hver : c.version < u64Mod)
    (others : List (Nat × Bytes)) (hothers : ∀ p ∈ others, p.1 ≠ i) (w : Bytes) :
    get? s i = some ⟨c.value, c.version⟩ ∧
    isUpToDate? (others.foldl (fun t p => update_with_copy t p.1 p.2) s) i
      c.version = some true ∧
    isUpToDate?
      (update_with_copy (others.foldl (fun t p => update_with_copy t p.1 p.2) s) i w) i
      c.version = some false := by
  have hfold := cellAt_foldl_update_ne others hothers s
  refine ⟨by rw [get?, hc, Option.map_some'], ?_, ?_⟩
  · rw [isUpToDate?, hfold, hc, Option.map_some']
    simp
  · rw [isUpToDate?, update_with_copy,
      cellAt_commitCell_self w (hfold.trans hc), Option.map_some']
    have hne : c.version ≠ (c.version + 1) % u64Mod :=
      fun hcontra => succ_mod_u64_ne hver hcontra.symm
    simp [hne]

/-- Witness for C3: on the two-entry store, the snapshot of entry 0 stays
up-to-date across a commit to entry 1 and turns stale after a commit to
entry 0 itself. -/
theorem C3_staleness_detection_witness :
    cellAt demoState2 0 = some { valueDetail := u16Detail, value := [0, 0], version := 0 } ∧
    ({ valueDetail := u16Detail, value := [0, 0], version := 0 } : EntryCell).version
      < u64Mod ∧
    (∀ p ∈ ([(1, [5, 0, 0, 0, 0, 0, 0, 0])] : List (Nat × Bytes)), p.1 ≠ 0) ∧
    (get? demoState2 0 = some ⟨[0, 0], 0⟩ ∧
     isUpToDate?
       (([(1, [5, 0, 0, 0, 0, 0, 0, 0])] : List (Nat × Bytes)).foldl
         (fun t p => update_with_copy t p.1 p.2) demoState2) 0 0 = some true ∧
     isUpToDate?
       (update_with_copy
         (([(1, [5, 0, 0, 0, 0, 0, 0, 0])] : List (Nat × Bytes)).foldl
           (fun t p => update_with_copy t p.1 p.2) demoState2) 0 [1, 0]) 0 0
       = some false) :=
  ⟨rfl, by decide, by decide,
    C3_staleness_detection demoState2 0
      { valueDetail := u16Detail, value := [0, 0], version := 0 } rfl (by decide)
      [(1, [5, 0, 0, 0, 0, 0, 0, 0])] (by decide) [1, 0]⟩

/-- C8: releasing a writer port, a reader port or the store handle does not
invalidate already-issued entry handles: a commit through an EntryHandleMut
after `writer.delete()` is still observed by readers, an EntryHandle still
returns the committed value after `reader.delete()`, including values committed
after the port (or the store handle) was deleted. -/
theorem C8_handles_survive_port_release (s : ServiceState) (i : Nat) (c : EntryCell)
    (hc : cellAt s i = some c) (v : Bytes) :
    (get? (update_with_copy (writerDelete s) i v) i).map (·.data) = some v ∧
    get? (readerDelete s) i = get? s i ∧
    (get? (update_with_copy (readerDelete s) i v) i).map (·.data) = some v ∧
    (get? (update_with_copy (serviceDelete s) i v) i).map (·.data) = some v := by
  have hcW : cellAt (writerDelete s) i = some c := hc
  have hcR : cellAt (readerDelete s) i = some c := hc
  have hcS : cellAt (serviceDelete s) i = some c := hc
  refine ⟨?_, rfl, ?_, ?_⟩
  · rw [update_with_copy, get?_commitCell_self v hcW, Option.map_some']
  · rw [update_with_copy, get?_commitCell_self v hcR, Option.map_some']
  · rw [update_with_copy, get?_commitCell_self v hcS, Option.map_some']

/-- Witness for C8: on the concrete store, a value committed after
`writer.delete()` (resp. `reader.delete()`, `service.delete()`) is returned by
`get()` on the pre-existing handle. -/
theorem C8_handles_survive_port_release_witness :
    cellAt demoState 0 = some { valueDetail := u16Detail, value := [0, 0], version := 0 } ∧
    ((get? (update_with_copy (writerDelete demoState) 0 [1, 0]) 0).map (·.data)
        = some [1, 0] ∧
     get? (readerDelete demoState) 0 = get? demoState 0 ∧
     (get? (update_with_copy (readerDelete demoState) 0 [1, 0]) 0).map (·.data)
        = some [1, 0] ∧
     (get? (update_with_copy (serviceDelete demoState) 0 [1, 0]) 0).map (·.data)
        = some [1, 0]) :=
  ⟨rfl,
    C8_handles_survive_port_release demoState 0
      { valueDetail := u16Detail, value := [0, 0], version := 0 } rfl [1, 0]⟩

/-- `demoState` after `service.writer_builder().create()`. -/
def demoStateW : ServiceState := { demoState with writerPortAlive := true }

/-- `demoStateW` after `writer.entry(key 0, c_uint16)` issued an
EntryHandleMut for EntryId 0. -/
def demoStateM : ServiceState := { demoStateW with mutHandles := [(0, LoanState.idle)] }

/-- C4: handle acquisition (`reader.entry` and `writer.entry`) fails with
`KeyNotFound` when the key is not in the table, with `TypeMismatch` when the
supplied value-type descriptor differs from the recorded one, and — on the
writer side — with `HandleAlreadyExists` while a live EntryHandleMut exists for
that EntryId; it succeeds otherwise, and after the EntryHandleMut is released a
new acquisition for the same EntryId succeeds. -/
theorem C4_handle_acquisition (s : ServiceState) (key : Bytes) (vd : TypeDetail) :
    (findKey s.table.keyEq s.table.keys key = none →
      readerEntry s key vd = .error .KeyNotFound ∧
      writerEntry s key vd = .error .KeyNotFound) ∧
    (∀ i c, findKey s.table.keyEq s.table.keys key = some i → cellAt s i = some c →
      c.valueDetail ≠ vd →
      readerEntry s key vd = .error .TypeMismatch ∧
      writerEntry s key vd = .error .TypeMismatch) ∧
    (∀ i c, findKey s.table.keyEq s.table.keys key = some i → cellAt s i = some c →
      c.valueDetail = vd → (lookupLoan s.mutHandles i).isSome = true →
      writerEntry s key vd = .error .HandleAlreadyExists) ∧
    (∀ i c, findKey s.table.keyEq s.table.keys key = some i → cellAt s i = some c →
      c.valueDetail = vd →
      readerEntry s key vd = .ok ⟨i⟩ ∧
      (lookupLoan s.mutHandles i = none →
        writerEntry s key vd
          = .ok ({ s with mutHandles := (i, .idle) :: s.mutHandles }, ⟨i⟩))) ∧
    (∀ i c, findKey s.table.keyEq s.table.keys key = some i → cellAt s i = some c →
      c.valueDetail = vd →
      (writerEntry (releaseMutHandle s i) key vd).isOk = true) := by
  refine ⟨?_, ?_, ?_, ?_, ?_⟩
  · intro hf
    exact ⟨by simp [readerEntry, hf], by simp [writerEntry, hf]⟩
  · intro i c hf hc hvd
    rw [cellAt] at hc
    exact ⟨by simp [readerEntry, hf, hc, hvd], by simp [writerEntry, hf, hc, hvd]⟩
  · intro i c hf hc hvd hloan
    rw [cellAt] at hc
    simp [writerEntry, hf, hc, hvd, hloan]
  · intro i c hf hc hvd
    rw [cellAt] at hc
    refine ⟨by simp [readerEntry, hf, hc, hvd], fun hloan => ?_⟩
    simp [writerEntry, hf, hc, hvd, hloan]
  · intro i c hf hc hvd
    rw [cellAt] at hc
    simp [writerEntry, releaseMutHandle, hf, hc, hvd, lookupLoan_filter_self,
      Except.isOk, Except.toBool]

/-- Witness for C4: on the concrete store — acquisition with an absent key
fails with `KeyNotFound`, with a `u64` descriptor for the `u16` entry fails
with `TypeMismatch`, a second writer-side acquisition while `demoStateM` holds
an EntryHandleMut for EntryId 0 fails with `HandleAlreadyExists`, acquisition
on the fresh store succeeds, and writer-side acquisition succeeds again after
the outstanding handle is released. -/
theorem C4_handle_acquisition_witness :
    (findKey demoState.table.keyEq demoState.table.keys key1Bytes = none ∧
     readerEntry demoState key1Bytes u16Detail = .error .KeyNotFound ∧
     writerEntry demoState key1Bytes u16Detail = .error .KeyNotFound) ∧
    (readerEntry demoState key0Bytes u64Detail = .error .TypeMismatch ∧
     writerEntry demoState key0Bytes u64Detail = .error .TypeMismatch) ∧
    writerEntry demoStateM key0Bytes u16Detail = .error .HandleAlreadyExists ∧
    (readerEntry demoState key0Bytes u16Detail = .ok ⟨0⟩ ∧
     writerEntry demoState key0Bytes u16Detail
       = .ok ({ demoState with mutHandles := [(0, .idle)] }, ⟨0⟩)) ∧
    (writerEntry (releaseMutHandle demoStateM 0) key0Bytes u16Detail).isOk = true := by
  have h1 := (C4_handle_acquisition demoState key1Bytes u16Detail).1 rfl
  have h2 := (C4_handle_acquisition demoState key0Bytes u64Detail).2.1 0
    { valueDetail := u16Detail, value := [0, 0], version := 0 } rfl rfl (by decide)
  have h3 := (C4_handle_acquisition demoStateM key0Bytes u16Detail).2.2.1 0
    { valueDetail := u16Detail, value := [0, 0], version := 0 } rfl rfl rfl rfl
  have h4 := (C4_handle_acquisition demoState key0Bytes u16Detail).2.2.2.1 0
    { valueDetail := u16Detail, value := [0, 0], version := 0 } rfl rfl rfl
  have h5 := (C4_handle_acquisition demoStateM key0Bytes u16Detail).2.2.2.2 0
    { valueDetail := u16Detail, value := [0, 0], version := 0 } rfl rfl rfl
  exact ⟨⟨rfl, h1⟩, h2, h3, ⟨h4.1, h4.2 rfl⟩, h5⟩

/-- Counterexample to C2 as stated: on the concrete store, after
`writer_builder().create()` succeeds and the writer issues an EntryHandleMut
for EntryId 0, deleting the writer port alone does *not* let the next
`create()` succeed — it still fails with `WriterSlotExhausted`
(Python `WriterCreateError`), because the outstanding EntryHandleMut keeps the
writer slot occupied (repository test
`test_entry_handle_mut_prevents_another_writer` in `writer_tests.py`). -/
theorem C2_counterexample :
    writerCreate demoState = .ok demoStateW ∧
    writerEntry demoStateW key0Bytes u16Detail = .ok (demoStateM, ⟨0⟩) ∧
    writerDelete demoStateM = { demoStateM with writerPortAlive := false } ∧
    writerCreate (writerDelete demoStateM) = .error .WriterSlotExhausted :=
  ⟨rfl, rfl, rfl, rfl⟩

/-- C2 amended: `WriterBuilder.create()` fails with `WriterCreateError` while a
writer port is alive *or while any EntryHandleMut issued through a writer is
still outstanding*; once the writer port is deleted and every outstanding
EntryHandleMut is released, `create()` succeeds again. -/
theorem C2_writer_capacity_amended (s : ServiceState) :
    (s.writerPortAlive = true → writerCreate s = .error .WriterSlotExhausted) ∧
    (s.mutHandles ≠ [] → writerCreate s = .error .WriterSlotExhausted) ∧
    (s.writerPortAlive = false → s.mutHandles = [] →
      writerCreate s = .ok { s with writerPortAlive := true }) := by
  refine ⟨fun h => by simp [writerCreate, h], fun h => ?_, fun h1 h2 => ?_⟩
  · have hne : s.mutHandles.isEmpty = false := by
      simpa [List.isEmpty_iff] using h
    simp [writerCreate, hne]
  · simp [writerCreate, h1, h2]

/-- Witness for C2 amended: `create()` fails while the port is alive
(`demoStateW`), fails with the port deleted but an EntryHandleMut outstanding
(`writerDelete demoStateM`), and succeeds on the fresh store. -/
theorem C2_writer_capacity_amended_witness :
    demoStateW.writerPortAlive = true ∧
    (writerDelete demoStateM).mutHandles ≠ [] ∧
    demoState.writerPortAlive = false ∧
    demoState.mutHandles = [] ∧
    (writerCreate demoStateW = .error .WriterSlotExhausted ∧
     writerCreate (writerDelete demoStateM) = .error .WriterSlotExhausted ∧
     writerCreate demoState = .ok { demoState with writerPortAlive := true }) :=
  ⟨rfl, by decide, rfl, rfl,
    (C2_writer_capacity_amended demoStateW).1 rfl,
    (C2_writer_capacity_amended (writerDelete demoStateM)).2.1 (by decide),
    (C2_writer_capacity_amended demoState).2.2 rfl rfl⟩

/-- C7: a value written into a loaned buffer (`loan_uninit`, then `value_mut` /
`write`) is not observable by `get()` until the loan is committed
(`assume_init_and_update`); `discard()` abandons the draft without incrementing
the version, the previously committed value stays visible, and the returned
EntryHandleMut remains usable for further updates. -/
theorem C7_loan_commit_discard (s : ServiceState) (i : Nat) (c : EntryCell)
    (hc : cellAt s i = some c) (hloan : lookupLoan s.mutHandles i = some .idle)
    (v w : Bytes) :
    get? (write_draft (loan_uninit s i) i v) i = some ⟨c.value, c.version⟩ ∧
    (get? (assume_init_and_update (write_draft (loan_uninit s i) i v) i) i).map
      (·.data) = some v ∧
    get? (discard (write_draft (loan_uninit s i) i v) i) i
      = some ⟨c.value, c.version⟩ ∧
    lookupLoan (discard (write_draft (loan_uninit s i) i v) i).mutHandles i
      = some .idle ∧
    (get? (update_with_copy (discard (write_draft (loan_uninit s i) i v) i) i w) i).map
      (·.data) = some w := by
  have hcRaw : s.table.cells[i]? = some c := hc
  have hs1 : loan_uninit s i
      = { s with
          mutHandles := modifyLoan s.mutHandles i fun st =>
            match st with
            | .idle => .loaned (List.replicate c.valueDetail.size 0)
            | st => st } := by
    rw [loan_uninit, hcRaw]
  have hget2 : get? (write_draft (loan_uninit s i) i v) i = some ⟨c.value, c.version⟩ := by
    rw [hs1, write_draft, get?, cellAt, hcRaw, Option.map_some']
  have hmut1 : lookupLoan (loan_uninit s i).mutHandles i
      = some (.loaned (List.replicate c.valueDetail.size 0)) := by
    rw [hs1]
    exact lookupLoan_modifyLoan_self
      (fun st =>
        match st with
        | .idle => .loaned (List.replicate c.valueDetail.size 0)
        | st => st) hloan
  have hmut2 : lookupLoan (write_draft (loan_uninit s i) i v).mutHandles i
      = some (.loaned v) := by
    rw [write_draft]
    exact lookupLoan_modifyLoan_self
      (fun st =>
        match st with
        | .loaned _ => .loaned v
        | st => st) hmut1
  have hc2 : cellAt (write_draft (loan_uninit s i) i v) i = some c := by
    rw [hs1, write_draft]
    exact hcRaw
  refine ⟨hget2, ?_, hget2, ?_, ?_⟩
  · rw [assume_init_and_update, hmut2]
    rw [show get?
        { commitCell (write_draft (loan_uninit s i) i v) i v with
          mutHandles := modifyLoan
            (commitCell (write_draft (loan_uninit s i) i v) i v).mutHandles i
            fun _ => .idle } i
      = get? (commitCell (write_draft (loan_uninit s i) i v) i v) i from rfl]
    rw [get?_commitCell_self v hc2, Option.map_some']
  · rw [discard]
    exact lookupLoan_modifyLoan_self (fun _ => .idle) hmut2
  · rw [update_with_copy, get?_commitCell_self w (show cellAt
      (discard (write_draft (loan_uninit s i) i v) i) i = some c from hc2),
      Option.map_some']

/-- Witness for C7: on the store holding an idle EntryHandleMut for EntryId 0,
loan, write 1234, observe the old value, commit and observe 1234; discard
instead leaves the old value and version, and a later `update_with_copy` of
4567 is observed. -/
theorem C7_loan_commit_discard_witness :
    cellAt demoStateM 0 = some { valueDetail := u16Detail, value := [0, 0], version := 0 } ∧
    lookupLoan demoStateM.mutHandles 0 = some .idle ∧
    (get? (write_draft (loan_uninit demoStateM 0) 0 [210, 4]) 0 = some ⟨[0, 0], 0⟩ ∧
     (get? (assume_init_and_update (write_draft (loan_uninit demoStateM 0) 0 [210, 4]) 0)
        0).map (·.data) = some [210, 4] ∧
     get? (discard (write_draft (loan_uninit demoStateM 0) 0 [210, 4]) 0) 0
        = some ⟨[0, 0], 0⟩ ∧
     lookupLoan (discard (write_draft (loan_uninit demoStateM 0) 0 [210, 4]) 0).mutHandles 0
        = some .idle ∧
     (get? (update_with_copy (discard (write_draft (loan_uninit demoStateM 0) 0 [210, 4]) 0)
        0 [215, 17]) 0).map (·.data) = some [215, 17]) :=
  ⟨rfl, rfl,
    C7_loan_commit_discard demoStateM 0
      { valueDetail := u16Detail, value := [0, 0], version := 0 } rfl rfl
      [210, 4] [215, 17]⟩

/-- `n` successive `ReaderBuilder.create()` calls succeed while they fit the
configured capacity, each incrementing the reader-port count by one. -/
theorem createNReaders_ok : ∀ (n : Nat) (s : ServiceState),
    s.readerPorts + n ≤ s.maxReaders →
    createNReaders s n = .ok { s with readerPorts := s.readerPorts + n } := by
  intro n
  induction n with
  | zero => intro s _; simp [createNReaders]
  | succ n ih =>
    intro s h
    have hlt : s.readerPorts < s.maxReaders := by omega
    rw [createNReaders, readerCreate, if_pos hlt]
    show createNReaders { s with readerPorts := s.readerPorts + 1 } n = _
    rw [ih { s with readerPorts := s.readerPorts + 1 }
      (show s.readerPorts + 1 + n ≤ s.maxReaders by omega)]
    have harith : s.readerPorts + 1 + n = s.readerPorts + (n + 1) := by omega
    simp [harith]

/-- C6: with `max_readers = N`, the first `N` reader-port creations all
succeed, the `(N+1)`-th fails with `ReaderSlotExhausted`
(Python `ReaderCreateError`), and after deleting one reader port the next
creation succeeds again. -/
theorem C6_reader_capacity (s : ServiceState) (N : Nat) (h0 : s.readerPorts = 0)
    (hN : s.maxReaders = N) (hNpos : 0 < N) :
    ∃ sN, createNReaders s N = .ok sN ∧ sN.readerPorts = N ∧
      readerCreate sN = .error .ReaderSlotExhausted ∧
      (readerCreate (readerDelete sN)).isOk = true := by
  refine ⟨{ s with readerPorts := N }, ?_, rfl, ?_, ?_⟩
  · have hok := createNReaders_ok N s (by omega)
    rw [hok, h0, Nat.zero_add]
  · simp [readerCreate, hN]
  · have hlt : N - 1 < N := Nat.sub_lt hNpos one_pos
    simp [readerCreate, readerDelete, hN, hlt, Except.isOk, Except.toBool]

/-- Witness for C6: on the concrete store with `max_readers = 8`, eight reader
ports are created, the ninth creation fails, and after one deletion a new
creation succeeds. -/
theorem C6_reader_capacity_witness :
    demoState.readerPorts = 0 ∧ demoState.maxReaders = 8 ∧ 0 < 8 ∧
    (∃ sN, createNReaders demoState 8 = .ok sN ∧ sN.readerPorts = 8 ∧
      readerCreate sN = .error .ReaderSlotExhausted ∧
      (readerCreate (readerDelete sN)).isOk = true) :=
  ⟨rfl, rfl, by decide, C6_reader_capacity demoState 8 rfl rfl (by decide)⟩

/-- C5: service creation fails with `DuplicateKey` when two entries compare
equal under the key's equality function, with `EmptyTable` when the entry list
is empty, and a failed create leaves no store behind — the registry is returned
unchanged and a subsequent create under the same name with a valid entry list
succeeds. -/
theorem C5_create_validation (w : World) (n : String) (keq : Bytes → Bytes → Bool)
    (entries : List (Bytes × TypeDetail × Bytes)) (mr mn : Nat)
    (hname : nameIsTaken w n = false) :
    (hasDuplicate keq (entries.map (·.1)) = true →
      runCreate w n keq entries mr mn = (w, .error .DuplicateKey)) ∧
    (entries = [] → runCreate w n keq entries mr mn = (w, .error .EmptyTable)) ∧
    (∀ entries' mr' mn', (buildTable keq entries').isOk = true →
      ((runCreate w n keq entries' mr' mn').2).isOk = true) := by
  refine ⟨fun hdup => ?_, fun hemp => ?_, fun entries' mr' mn' hok => ?_⟩
  · have hne : entries.isEmpty = false := by
      cases entries with
      | nil => simp [hasDuplicate] at hdup
      | cons a l => rfl
    simp [runCreate, buildTable, hname, hne, hdup]
  · subst hemp
    simp [runCreate, buildTable, hname]
  · cases hb : buildTable keq entries' with
    | error e => rw [hb] at hok; simp [Except.isOk, Except.toBool] at hok
    | ok t => simp [runCreate, hname, hb, Except.isOk, Except.toBool]

/-- Witness for C5: creating with the key `0` listed twice fails with
`DuplicateKey`, creating with no entries fails with `EmptyTable`, both leave
the empty registry unchanged, and a subsequent create with the valid entry list
succeeds. -/
theorem C5_create_validation_witness :
    nameIsTaken ⟨[]⟩ "svc" = false ∧
    hasDuplicate byteEq
      ([(key0Bytes, u16Detail, [0, 0]), (key0Bytes, u16Detail, [1, 0])].map (·.1))
      = true ∧
    (buildTable byteEq demoEntries).isOk = true ∧
    (runCreate ⟨[]⟩ "svc" byteEq
        [(key0Bytes, u16Detail, [0, 0]), (key0Bytes, u16Detail, [1, 0])] 8 2
      = (⟨[]⟩, .error .DuplicateKey) ∧
     runCreate ⟨[]⟩ "svc" byteEq [] 8 2 = (⟨[]⟩, .error .EmptyTable) ∧
     ((runCreate ⟨[]⟩ "svc" byteEq demoEntries 8 2).2).isOk = true) :=
  ⟨rfl, by decide, rfl,
    (C5_create_validation ⟨[]⟩ "svc" byteEq
      [(key0Bytes, u16Detail, [0, 0]), (key0Bytes, u16Detail, [1, 0])] 8 2 rfl).1
      (by decide),
    (C5_create_validation ⟨[]⟩ "svc" byteEq [] 8 2 rfl).2.1 rfl,
    (C5_create_validation ⟨[]⟩ "svc" byteEq demoEntries 8 2 rfl).2.2 demoEntries 8 2 rfl⟩

/-- The concrete store after `service.delete()` with a writer port and one
reader port still alive. -/
def demoStateDropped : ServiceState :=
  { demoState with storeHandleAlive := false, writerPortAlive := true, readerPorts := 1 }

/-- The concrete store after `service.delete()` once every port was deleted. -/
def demoStateDroppedNoPorts : ServiceState := { demoState with storeHandleAlive := false }

/-- C9: after the service handle is deleted, live reader or writer ports keep
the service alive — creating a new blackboard service under the same name fails
(Python `BlackboardCreateError`) while any port of the deleted service exists
and succeeds once every port is deleted — and communication between the
surviving handles keeps working in the meantime. -/
theorem C9_ports_keep_service_alive (n : String) (s : ServiceState)
    (keq : Bytes → Bytes → Bool) (entries : List (Bytes × TypeDetail × Bytes))
    (mr mn : Nat) (t : EntryTable)
    (hstore : s.storeHandleAlive = false) (hbuild : buildTable keq entries = .ok t) :
    (s.writerPortAlive = true →
      (runCreate ⟨[(n, s)]⟩ n keq entries mr mn).2 = .error .AlreadyExists) ∧
    (0 < s.readerPorts →
      (runCreate ⟨[(n, s)]⟩ n keq entries mr mn).2 = .error .AlreadyExists) ∧
    (s.writerPortAlive = false → s.readerPorts = 0 →
      ((runCreate ⟨[(n, s)]⟩ n keq entries mr mn).2).isOk = true) ∧
    (∀ i c v, cellAt s i = some c →
      (get? (update_with_copy s i v) i).map (·.data) = some v) := by
  refine ⟨fun hw => ?_, fun hr => ?_, fun hw hr => ?_, fun i c v hc => ?_⟩
  · simp [runCreate, nameIsTaken, serviceAlive, hstore, hw]
  · have hdec : decide (0 < s.readerPorts) = true := decide_eq_true hr
    simp [runCreate, nameIsTaken, serviceAlive, hstore, hdec]
  · simp [runCreate, nameIsTaken, serviceAlive, hstore, hw, hr, hbuild,
      Except.isOk, Except.toBool]
  · rw [update_with_copy, get?_commitCell_self v hc, Option.map_some']

/-- Witness for C9: with the writer and a reader port of the dropped service
alive, re-creation under the same name fails; once no port is left it succeeds;
and a value committed after the drop is still read back. -/
theorem C9_ports_keep_service_alive_witness :
    demoStateDropped.storeHandleAlive = false ∧
    buildTable byteEq demoEntries = .ok demoState.table ∧
    demoStateDropped.writerPortAlive = true ∧
    0 < demoStateDropped.readerPorts ∧
    demoStateDroppedNoPorts.storeHandleAlive = false ∧
    demoStateDroppedNoPorts.writerPortAlive = false ∧
    demoStateDroppedNoPorts.readerPorts = 0 ∧
    ((runCreate ⟨[("svc", demoStateDropped)]⟩ "svc" byteEq demoEntries 8 2).2
        = .error .AlreadyExists ∧
     ((runCreate ⟨[("svc", demoStateDroppedNoPorts)]⟩ "svc" byteEq demoEntries 8 2).2).isOk
        = true ∧
     (get? (update_with_copy demoStateDropped 0 [1, 0]) 0).map (·.data) = some [1, 0]) :=
  ⟨rfl, rfl, rfl, by decide, rfl, rfl, rfl,
    (C9_ports_keep_service_alive "svc" demoStateDropped byteEq demoEntries 8 2
      demoState.table rfl rfl).1 rfl,
    (C9_ports_keep_service_alive "svc" demoStateDroppedNoPorts byteEq demoEntries 8 2
      demoState.table rfl rfl).2.2.1 rfl rfl,
    (C9_ports_keep_service_alive "svc" demoStateDropped byteEq demoEntries 8 2
      demoState.table rfl rfl).2.2.2 0
      { valueDetail := u16Detail, value := [0, 0], version := 0 } [1, 0] rfl⟩

/-- C10: for every service creation, a configured capacity of 0 is clamped
to 1 — creating with `max_readers(0)` and `max_nodes(0)` records 1 for both in
the static config instead of failing or recording 0. -/
theorem C10_zero_capacity_clamped (w : World) (n : String)
    (keq : Bytes → Bytes → Bool) (entries : List (Bytes × TypeDetail × Bytes))
    (t : EntryTable)
    (hname : nameIsTaken w n = false) (hb : buildTable keq entries = .ok t) :
    ∃ s, (runCreate w n keq entries 0 0).2 = .ok s ∧
      s.maxReaders = 1 ∧ s.maxNodes = 1 := by
  refine ⟨{ table := t, maxReaders := 1, maxNodes := 1, storeHandleAlive := true,
            writerPortAlive := false, readerPorts := 0, mutHandles := [] }, ?_, rfl, rfl⟩
  simp [runCreate, hname, hb, Nat.zero_max]

/-- Witness for C10: creating the concrete store with `max_readers(0)` and
`max_nodes(0)` yields a static config with both capacities equal to 1. -/
theorem C10_zero_capacity_clamped_witness :
    nameIsTaken ⟨[]⟩ "svc" = false ∧
    buildTable byteEq demoEntries = .ok demoState.table ∧
    (∃ s, (runCreate ⟨[]⟩ "svc" byteEq demoEntries 0 0).2 = .ok s ∧
      s.maxReaders = 1 ∧ s.maxNodes = 1) :=
  ⟨rfl, rfl,
    C10_zero_capacity_clamped ⟨[]⟩ "svc" byteEq demoEntries demoState.table rfl rfl⟩

end Iox2BB
